import Mathlib

/-!
Shallow embedding of the near-earth-object ETL utility (src/models.py,
src/extract.py, src/write.py) and proofs of the specification claims.

Python strings are Lean `String`s; a Python value that can be a string or
`None` is an `Option String`.  Python floats are modelled by `FloatV`
(a not-a-number marker or an exact rational), since every float in this
program is either `float('nan')` or a parsed decimal literal.  Python
exceptions are modelled by `Except PyErr`.
-/

/-- Python exception kinds raised by the modelled code paths. -/
inductive PyErr
  | typeError
  | valueError
  | attributeError
  deriving DecidableEq, Repr

/-- Model of a Python float as produced by this program: either the
not-a-number sentinel or an exact decimal value. -/
inductive FloatV
  | nan
  | val (q : ℚ)
  deriving DecidableEq, Repr

/-- Python values that appear in the serialized dictionaries and CSV rows
of this program: strings, floats, booleans and `None`. -/
inductive PyVal
  | str (s : String)
  | float (v : FloatV)
  | bool (b : Bool)
  | none
  deriving DecidableEq, Repr

/-- Result type of `NearEarthObject.fullname`: the code's conditional
expression produces either a string (named case) or, through a Python set
literal, a one-element set holding the designation (unnamed case). -/
inductive FullnameVal
  | str (s : String)
  | set (s : Option String)
  deriving DecidableEq, Repr

/-- Python truthiness of an optional string (`None` and `''` are falsy). -/
def pyTruthyStr : Option String → Bool
  | Option.none => false
  | some s => !s.isEmpty

/-- Python truthiness of a float (`0.0` is falsy; note that `nan` is truthy). -/
def pyTruthyFloat : FloatV → Bool
  | FloatV.nan => true
  | FloatV.val q => decide (q ≠ 0)

/-- Lift an optional string to the Python value it denotes (`None` or the string). -/
def pyOfOptStr : Option String → PyVal
  | Option.none => PyVal.none
  | some s => PyVal.str s

/-- Python f-string interpolation of an optional string (`None` prints as "None"). -/
def pyStrOfOpt : Option String → String
  | Option.none => "None"
  | some s => s

/-- Value of a decimal digit character. -/
def digitVal (c : Char) : ℕ := c.toNat - 48

/-- True when the character list is a nonempty run of decimal digits. -/
def allDigits (l : List Char) : Bool := !l.isEmpty && l.all Char.isDigit

/-- Natural number denoted by a run of decimal digits. -/
def digitsToNat (l : List Char) : ℕ := l.foldl (fun a c => a * 10 + digitVal c) 0

/-- Parse an unsigned decimal literal (`"10"`, `"1.5"`, `".5"`, `"1."`) to a
rational, as Python's `float` does on such forms. -/
def parseUnsigned (l : List Char) : Option ℚ :=
  match l.splitOn '.' with
  | [ip] => if allDigits ip then some ((digitsToNat ip : ℚ)) else Option.none
  | [ip, fp] =>
    if (allDigits ip || ip.isEmpty) && (allDigits fp || fp.isEmpty)
        && !(ip.isEmpty && fp.isEmpty) then
      some ((digitsToNat ip : ℚ) + (digitsToNat fp : ℚ) / ((10 : ℚ) ^ fp.length))
    else Option.none
  | _ => Option.none

/-- Model of Python's `float(s)` string parsing on the forms this data set
feeds it: an optional sign, then either `nan` (any case) or a decimal
literal.  Exponents, infinities and surrounding whitespace do not occur in
the repository's inputs and are treated as unparsable. -/
def parseFloatStr (s : String) : Option FloatV :=
  let l := s.data
  let sb : ℚ × List Char :=
    match l with
    | '-' :: rest => (-1, rest)
    | '+' :: rest => (1, rest)
    | _ => (1, l)
  if sb.2.map Char.toLower = ['n', 'a', 'n'] then some FloatV.nan
  else (parseUnsigned sb.2).map (fun q => FloatV.val (sb.1 * q))

/-- Python `float(s)` on a string: `ValueError` when unparsable. -/
def pyFloatStr (s : String) : Except PyErr FloatV :=
  match parseFloatStr s with
  | some v => Except.ok v
  | Option.none => Except.error PyErr.valueError

/-- Python `float(x)` on a string-or-`None` value: `TypeError` on `None`. -/
def pyFloatOpt : Option String → Except PyErr FloatV
  | Option.none => Except.error PyErr.typeError
  | some s => pyFloatStr s

/-- Fractional decimal digits of `r` (with `0 ≤ r < 1`), up to `fuel` digits. -/
def fracDigits : ℕ → ℚ → List Char
  | 0, _ => []
  | fuel + 1, r =>
    if r = 0 then []
    else
      let d := (r * 10).floor
      Char.ofNat (48 + d.toNat) :: fracDigits fuel (r * 10 - (d : ℚ))

/-- Decimal rendering of a rational, in the style of Python's `str` on a
float holding an exact decimal value (always shows a fractional part). -/
def decStr (q : ℚ) : String :=
  let sgn := if q < 0 then "-" else ""
  let a := if q < 0 then -q else q
  let ip := a.floor.toNat
  let fd := fracDigits 30 (a - (ip : ℚ))
  sgn ++ toString ip ++ "." ++ (if fd.isEmpty then "0" else String.mk fd)

/-- Model of Python's `str` on a float of this program. -/
def pyStrFloat : FloatV → String
  | FloatV.nan => "nan"
  | FloatV.val q => decStr q

/-- Model of Python's `str` on a boolean. -/
def pyStrBool (b : Bool) : String := if b then "True" else "False"

/-- True when an `Except` computation succeeded (the Python call did not raise). -/
def exceptIsOk {ε α : Type} : Except ε α → Bool
  | Except.ok _ => true
  | Except.error _ => false

/-- Calendar date-time with minute precision, the value produced by
`cd_to_datetime` in the (absent) helpers module. -/
structure DateTime where
  year : ℕ
  month : ℕ
  day : ℕ
  hour : ℕ
  minute : ℕ
  deriving DecidableEq, Repr

/-- Month number of a three-letter month abbreviation. -/
def monthNum (l : List Char) : Option ℕ :=
  match l with
  | ['J', 'a', 'n'] => some 1
  | ['F', 'e', 'b'] => some 2
  | ['M', 'a', 'r'] => some 3
  | ['A', 'p', 'r'] => some 4
  | ['M', 'a', 'y'] => some 5
  | ['J', 'u', 'n'] => some 6
  | ['J', 'u', 'l'] => some 7
  | ['A', 'u', 'g'] => some 8
  | ['S', 'e', 'p'] => some 9
  | ['O', 'c', 't'] => some 10
  | ['N', 'o', 'v'] => some 11
  | ['D', 'e', 'c'] => some 12
  | _ => Option.none

/-- Modelled from the spec: `cd_to_datetime` of the repository's helpers
module (not under src/) parses a compact date-time code of the form
`YYYY-Mon-DD HH:MM` into a calendar date-time; a `None` argument raises
`TypeError` and an unparsable code raises `ValueError`. -/
def cd_to_datetime : Option String → Except PyErr DateTime
  | Option.none => Except.error PyErr.typeError
  | some s =>
    match s.data with
    | [y1, y2, y3, y4, '-', m1, m2, m3, '-', d1, d2, ' ', h1, h2, ':', n1, n2] =>
      match monthNum [m1, m2, m3] with
      | some m =>
        if allDigits [y1, y2, y3, y4] && allDigits [d1, d2]
            && allDigits [h1, h2] && allDigits [n1, n2] then
          Except.ok
            { year := digitsToNat [y1, y2, y3, y4], month := m,
              day := digitsToNat [d1, d2], hour := digitsToNat [h1, h2],
              minute := digitsToNat [n1, n2] }
        else Except.error PyErr.valueError
      | Option.none => Except.error PyErr.valueError
    | _ => Except.error PyErr.valueError

/-- Zero-padded two-digit rendering of a number below 100. -/
def pad2 (n : ℕ) : String := if n < 10 then "0" ++ toString n else toString n

/-- Zero-padded four-digit rendering of a number below 10000. -/
def pad4 (n : ℕ) : String :=
  if n < 10 then "000" ++ toString n
  else if n < 100 then "00" ++ toString n
  else if n < 1000 then "0" ++ toString n
  else toString n

/-- Modelled from the spec: `datetime_to_str` of the repository's helpers
module (not under src/) formats a date-time without seconds, as
`YYYY-MM-DD HH:MM`. -/
def datetime_to_str (dt : DateTime) : String :=
  pad4 dt.year ++ "-" ++ pad2 dt.month ++ "-" ++ pad2 dt.day ++ " "
    ++ pad2 dt.hour ++ ":" ++ pad2 dt.minute

/-- A near-Earth object (src/models.py `NearEarthObject`).  The
`approaches` back-reference collection is populated only by the linking
phase (the database module, outside src/) and is touched by none of the
claims, so it is not modelled here. -/
structure NearEarthObject where
  designation : Option String
  name : Option String
  diameter : FloatV
  hazardous : Bool
  deriving DecidableEq, Repr

/-- A close approach (src/models.py `CloseApproach`). -/
structure CloseApproach where
  _designation : Option String
  time : DateTime
  distance : FloatV
  velocity : FloatV
  neo : Option NearEarthObject
  deriving DecidableEq, Repr

/-- The keyword arguments `NearEarthObject.__init__` reads.  `Option.none`
models a missing key; a key present with value `None` behaves identically
on every optional field this program exercises (`load_neos` always passes
a real string for `diameter`, the only field whose `dict.get` default
would distinguish the two). -/
structure RawNEO where
  designation : Option String
  name : Option String
  hazardous : Option String
  diameter : Option String
  deriving DecidableEq, Repr

/-- The keyword arguments `CloseApproach.__init__` reads. -/
structure RawCA where
  designation : Option String
  time : Option String
  distance : Option String
  velocity : Option String
  neo : Option NearEarthObject
  deriving Repr

/-- A row of the NEO source CSV as `csv.DictReader` yields it (src/extract.py):
the four columns `load_neos` reads, each possibly empty or missing. -/
structure RawCSVRow where
  pdes : Option String
  name : Option String
  pha : Option String
  diameter : Option String
  deriving DecidableEq, Repr

/-- `NearEarthObject.__init__` (src/models.py:35-47): the name is kept only
when truthy, the diameter string (defaulting to `'nan'` when the key is
missing) is parsed with `float`, and the hazard flag is an exact comparison
against `'Y'` (defaulting to `'N'`). -/
def NearEarthObject.init (info : RawNEO) : Except PyErr NearEarthObject :=
  match pyFloatStr (info.diameter.getD "nan") with
  | Except.error e => Except.error e
  | Except.ok diam =>
    Except.ok
      { designation := info.designation
        name := if pyTruthyStr info.name then info.name else Option.none
        diameter := diam
        hazardous := decide (info.hazardous.getD "N" = "Y") }

/-- `NearEarthObject.fullname` (src/models.py:49-54).  The `else` branch of
the conditional expression is `\x7bself.designation\x7d`, a Python set
literal (not an f-string), so an unnamed NEO yields a one-element set
rather than the bare designation string. -/
def NearEarthObject.fullname (neo : NearEarthObject) : FullnameVal :=
  if pyTruthyStr neo.name then
    FullnameVal.str (pyStrOfOpt neo.designation ++ " (" ++ neo.name.getD "" ++ ")")
  else
    FullnameVal.set neo.designation

/-- `NearEarthObject.serialize` (src/models.py:69-77), as the ordered
key-value mapping it builds. -/
def NearEarthObject.serialize (neo : NearEarthObject) : List (String × PyVal) :=
  [("potentially_hazardous", PyVal.bool neo.hazardous),
   ("diameter_km", PyVal.float neo.diameter),
   ("name", PyVal.str (if pyTruthyStr neo.name then neo.name.getD "" else "")),
   ("designation", pyOfOptStr neo.designation)]

/-- `CloseApproach.__init__` (src/models.py:93-103): the time code is parsed
by `cd_to_datetime` and the distance and velocity by `float`; each raises on
a missing or malformed value, aborting construction.  The `neo` keyword
(never supplied by `load_approaches`) is stored as the unresolved reference. -/
def CloseApproach.init (info : RawCA) : Except PyErr CloseApproach :=
  match cd_to_datetime info.time with
  | Except.error e => Except.error e
  | Except.ok t =>
    match pyFloatOpt info.distance with
    | Except.error e => Except.error e
    | Except.ok d =>
      match pyFloatOpt info.velocity with
      | Except.error e => Except.error e
      | Except.ok v =>
        Except.ok
          { _designation := info.designation, time := t,
            distance := d, velocity := v, neo := info.neo }

/-- `CloseApproach.time_str` (src/models.py:105-119). -/
def CloseApproach.time_str (ca : CloseApproach) : String := datetime_to_str ca.time

/-- `CloseApproach.serialize` (src/models.py:132-141).  The code assigns
`distance_au`, `velocity_km_s`, then `time`, then pops `time` into the new
key `datetime_utc` (appended at the end) and finally adds `_designation`,
yielding this key order. -/
def CloseApproach.serialize (ca : CloseApproach) : List (String × PyVal) :=
  [("distance_au", PyVal.float ca.distance),
   ("velocity_km_s", PyVal.float ca.velocity),
   ("datetime_utc", PyVal.str (datetime_to_str ca.time)),
   ("_designation", pyOfOptStr ca._designation)]

/-- The keyword dictionary `load_neos` builds per CSV row
(src/extract.py:31-42); a falsy (`None` or empty) diameter column is
replaced by the string `'nan'`. -/
def load_neos_params (elem : RawCSVRow) : RawNEO :=
  { designation := elem.pdes
    name := elem.name
    hazardous := elem.pha
    diameter := some (match elem.diameter with
      | some d => if d.isEmpty then "nan" else d
      | Option.none => "nan") }

/-- `load_neos` (src/extract.py:20-44): construct one NEO per row; an
exception raised by any construction aborts the load. -/
def load_neos : List RawCSVRow → Except PyErr (List NearEarthObject)
  | [] => Except.ok []
  | elem :: rest =>
    match NearEarthObject.init (load_neos_params elem) with
    | Except.error e => Except.error e
    | Except.ok neo =>
      match load_neos rest with
      | Except.error e => Except.error e
      | Except.ok neos => Except.ok (neo :: neos)

/-- Rendering a Python value as a CSV field, as the `csv` module's writer
does: strings verbatim, `None` as the empty string, other values via `str`. -/
def csvCell : PyVal → String
  | PyVal.str s => s
  | PyVal.none => ""
  | PyVal.float v => pyStrFloat v
  | PyVal.bool b => pyStrBool b

/-- The header tuple `fieldnames` of `write_to_csv` (src/write.py:27). -/
def csvHeader : List PyVal :=
  [PyVal.str "datetime_utc", PyVal.str "distance_au", PyVal.str "velocity_km_s",
   PyVal.str "designation", PyVal.str "name", PyVal.str "diameter_km",
   PyVal.str "potentially_hazardous"]

/-- One iteration of the `write_to_csv` loop (src/write.py:35-45).  An
unresolved approach (`neo` is `None`) raises `AttributeError` at
`ca.neo.diameter`.  The name column is `ca.neo.name if ca.neo.diameter
else ''` — the condition tests the DIAMETER's truthiness (`nan` is truthy,
`0.0` falsy), exactly as in the source. -/
def csvApproachRow (ca : CloseApproach) : Except PyErr (List PyVal) :=
  match ca.neo with
  | Option.none => Except.error PyErr.attributeError
  | some n =>
    Except.ok
      [PyVal.str ca.time_str, PyVal.float ca.distance, PyVal.float ca.velocity,
       pyOfOptStr ca._designation,
       (if pyTruthyFloat n.diameter then pyOfOptStr n.name else PyVal.str ""),
       PyVal.str (pyStrFloat n.diameter), PyVal.str (pyStrBool n.hazardous)]

/-- The data row `write_to_csv` emits for a resolved close approach, used to
describe the output of a successful export. -/
def csvRowSpec (ca : CloseApproach) : List PyVal :=
  match ca.neo with
  | some n =>
    [PyVal.str ca.time_str, PyVal.float ca.distance, PyVal.float ca.velocity,
     pyOfOptStr ca._designation,
     (if pyTruthyFloat n.diameter then pyOfOptStr n.name else PyVal.str ""),
     PyVal.str (pyStrFloat n.diameter), PyVal.str (pyStrBool n.hazardous)]
  | Option.none => []

/-- The data rows of `write_to_csv`, in input order; the first raised
exception aborts the loop. -/
def csvRows : List CloseApproach → Except PyErr (List (List PyVal))
  | [] => Except.ok []
  | ca :: rest =>
    match csvApproachRow ca with
    | Except.error e => Except.error e
    | Except.ok row =>
      match csvRows rest with
      | Except.error e => Except.error e
      | Except.ok rows => Except.ok (row :: rows)

/-- `write_to_csv` (src/write.py:17-45): the header row followed by one data
row per close approach.  (On an exception the file already holds the rows
written so far; the function itself propagates the exception, which is what
the `Except` models.) -/
def write_to_csv (results : List CloseApproach) : Except PyErr (List (List PyVal)) :=
  match csvRows results with
  | Except.error e => Except.error e
  | Except.ok rows => Except.ok (csvHeader :: rows)

/-- A value of a serialized close-approach dictionary in `write_to_json`:
either a plain value or, for the `neo` key, a nested dictionary. -/
inductive JEntryVal
  | prim (v : PyVal)
  | obj (d : List (String × PyVal))
  deriving DecidableEq, Repr

/-- A serialized close-approach dictionary, in insertion order. -/
abbrev JObj := List (String × JEntryVal)

/-- Dictionary lookup on an ordered key-value list. -/
def dictLookup {α : Type} : List (String × α) → String → Option α
  | [], _ => Option.none
  | (k1, v1) :: rest, k => if k1 = k then some v1 else dictLookup rest k

/-- Python dict assignment: replace the value in place if the key exists,
otherwise append the binding. -/
def dictSet : JObj → String → JEntryVal → JObj
  | [], k, v => [(k, v)]
  | (k1, v1) :: rest, k, v =>
    if k1 = k then (k, v) :: rest else (k1, v1) :: dictSet rest k v

/-- Python `del d[k]`: drop the binding (dictionaries hold each key once). -/
def dictDel : JObj → String → JObj
  | [], _ => []
  | (k1, v1) :: rest, k => if k1 = k then rest else (k1, v1) :: dictDel rest k

/-- Lift a flat serialized dictionary into a `JObj`. -/
def liftDict (d : List (String × PyVal)) : JObj :=
  d.map (fun kv => (kv.1, JEntryVal.prim kv.2))

/-- The join test of `write_to_json` (src/write.py:72):
`neo['designation'] == ca['_designation']`.  Serialized dictionaries always
carry both keys, so the missing-key fallback is never reached. -/
def matchKey (acc : JObj) (nd : List (String × PyVal)) : Bool :=
  match dictLookup nd "designation", dictLookup acc "_designation" with
  | some a, some (JEntryVal.prim b) => decide (a = b)
  | _, _ => false

/-- One step of the inner join loop of `write_to_json` (src/write.py:71-73):
a matching serialized NEO is assigned to the `neo` key (a later match
overwrites an earlier one). -/
def attachStep (acc : JObj) (nd : List (String × PyVal)) : JObj :=
  if matchKey acc nd then dictSet acc "neo" (JEntryVal.obj nd) else acc

/-- The serialized NEOs collected by the first loop of `write_to_json`
(src/write.py:64-67): one per close approach whose `neo` is set (truthy). -/
def neoDicts (results : List CloseApproach) : List (List (String × PyVal)) :=
  (results.filterMap CloseApproach.neo).map NearEarthObject.serialize

/-- `write_to_json` (src/write.py:49-77): serialize every close approach,
then for each one scan all serialized NEOs, attaching any whose designation
equals the approach's `_designation`, and finally delete the `_designation`
joining key.  The function models the list handed to `json.dump`. -/
def write_to_json (results : List CloseApproach) : List JObj :=
  (results.map (fun ca => liftDict ca.serialize)).map
    (fun d => dictDel ((neoDicts results).foldl attachStep d) "_designation")

/-- Fixture for C1: an unnamed NEO. -/
def neo1a : NearEarthObject :=
  { designation := some "2020 AB", name := Option.none,
    diameter := FloatV.nan, hazardous := false }

/-- Fixture for C1: a named NEO. -/
def neo1b : NearEarthObject :=
  { designation := some "433", name := some "Eros",
    diameter := FloatV.val 1, hazardous := false }

/-- Fixture for C2: a concrete close approach. -/
def ca2x : CloseApproach :=
  { _designation := some "433", time := { year := 2020, month := 1, day := 1, hour := 0, minute := 0 },
    distance := FloatV.val 1, velocity := FloatV.val 1, neo := Option.none }

/-- Fixture for C3: a resolved NEO with no name. -/
def neo3 : NearEarthObject :=
  { designation := some "433", name := Option.none,
    diameter := FloatV.nan, hazardous := false }

/-- Fixture for C3: a close approach resolved to `neo3`. -/
def ca3 : CloseApproach :=
  { _designation := some "433", time := { year := 2020, month := 1, day := 1, hour := 0, minute := 0 },
    distance := FloatV.val 1, velocity := FloatV.val 1, neo := some neo3 }

/-- Fixture for C3: the row `write_to_csv` produces for `ca3`. -/
def row3 : List PyVal :=
  [PyVal.str "2020-01-01 00:00", PyVal.float (FloatV.val 1), PyVal.float (FloatV.val 1),
   PyVal.str "433", PyVal.none, PyVal.str "nan", PyVal.str "False"]

/-- Fixture for C4: the NEO of the resolved approach. -/
def neo4 : NearEarthObject :=
  { designation := some "433", name := some "Eros",
    diameter := FloatV.val 1, hazardous := false }

/-- Fixture for C4's counterexample: a resolved approach carrying `neo4`. -/
def cex4a : CloseApproach :=
  { _designation := some "433", time := { year := 2020, month := 1, day := 1, hour := 0, minute := 0 },
    distance := FloatV.val 1, velocity := FloatV.val 1, neo := some neo4 }

/-- Fixture for C4's counterexample: an unresolved approach whose foreign key
happens to equal `neo4`'s designation. -/
def cex4b : CloseApproach :=
  { _designation := some "433", time := { year := 2020, month := 1, day := 2, hour := 0, minute := 0 },
    distance := FloatV.val 1, velocity := FloatV.val 1, neo := Option.none }

/-- Fixture for C4's amended claim: an unresolved approach. -/
def ca4 : CloseApproach :=
  { _designation := some "1", time := { year := 2020, month := 1, day := 1, hour := 0, minute := 0 },
    distance := FloatV.val 1, velocity := FloatV.val 1, neo := Option.none }

/-- Fixture for C4's amended claim: a one-approach input. -/
def results4 : List CloseApproach := [ca4]

/-- Fixture for C5: a serialized NEO. -/
def neo5 : NearEarthObject :=
  { designation := some "433", name := some "Eros",
    diameter := FloatV.nan, hazardous := false }

/-- Fixture for C5: an approach resolved to `neo5` with matching key. -/
def ca5 : CloseApproach :=
  { _designation := some "433", time := { year := 2020, month := 1, day := 1, hour := 0, minute := 0 },
    distance := FloatV.val 1, velocity := FloatV.val 1, neo := some neo5 }

/-- Fixture for C5: a one-approach input. -/
def results5 : List CloseApproach := [ca5]

/-- Fixture for C6: a CSV row with every optional field missing. -/
def elem6 : RawCSVRow :=
  { pdes := some "2020 AB", name := Option.none, pha := Option.none, diameter := Option.none }

/-- Fixture for C7: a record whose distance is absent. -/
def info7bad : RawCA :=
  { designation := some "1", time := some "2020-Jan-01 00:00",
    distance := Option.none, velocity := some "nan", neo := Option.none }

/-- Fixture for C7: a record with well-formed numeric fields. -/
def info7good : RawCA :=
  { designation := some "1", time := some "2020-Jan-01 00:00",
    distance := some "nan", velocity := some "nan", neo := Option.none }

/-- Fixture for C8: a resolved NEO. -/
def neo8 : NearEarthObject :=
  { designation := some "433", name := some "Eros",
    diameter := FloatV.nan, hazardous := false }

/-- Fixture for C8: an approach resolved to `neo8`. -/
def ca8 : CloseApproach :=
  { _designation := some "433", time := { year := 2020, month := 1, day := 1, hour := 0, minute := 0 },
    distance := FloatV.val 1, velocity := FloatV.val 1, neo := some neo8 }

/-- Fixture for C8: a one-approach input. -/
def results8 : List CloseApproach := [ca8]

/-- Fixture for C9: a raw mapping whose hazard marker is exactly `Y`. -/
def info9 : RawNEO :=
  { designation := some "433", name := Option.none,
    hazardous := some "Y", diameter := Option.none }

/-- Fixture for C9: the NEO `info9` constructs. -/
def neo9 : NearEarthObject :=
  { designation := some "433", name := Option.none,
    diameter := FloatV.nan, hazardous := true }

/-- Fixture for C10: an unresolved approach. -/
def ca10 : CloseApproach :=
  { _designation := some "1", time := { year := 2020, month := 1, day := 1, hour := 0, minute := 0 },
    distance := FloatV.val 1, velocity := FloatV.val 1, neo := Option.none }


/-- `pyOfOptStr` is injective: distinct raw designations serialize to
distinct Python values. -/
theorem pyOfOptStr_inj {a b : Option String} (h : pyOfOptStr a = pyOfOptStr b) :
    a = b := by
  cases a <;> cases b <;> simp_all [pyOfOptStr]

/-- `getD` on a mapped list picks the image of the indexed element. -/
theorem getD_map {α β : Type} (f : α → β) (l : List α) (i : ℕ) (hi : i < l.length)
    (d : β) : (l.map f).getD i d = f l[i] := by
  induction l generalizing i with
  | nil => cases hi
  | cons a t ih =>
    cases i with
    | zero => rfl
    | succ n => exact ih n (Nat.lt_of_succ_lt_succ hi)

/-- Setting one key leaves lookups of other keys unchanged. -/
theorem dictLookup_dictSet_ne (d : JObj) (k k2 : String) (v : JEntryVal)
    (h : k2 ≠ k) : dictLookup (dictSet d k2 v) k = dictLookup d k := by
  induction d with
  | nil => simp [dictSet, dictLookup, h]
  | cons kv rest ih =>
    by_cases hk : kv.1 = k2
    · simp [dictSet, hk, dictLookup, h]
    · simp [dictSet, hk, dictLookup, ih]

/-- Re-setting the same key overwrites the earlier assignment. -/
theorem dictSet_dictSet (d : JObj) (k : String) (v w : JEntryVal) :
    dictSet (dictSet d k v) k w = dictSet d k w := by
  induction d with
  | nil => simp [dictSet]
  | cons kv rest ih =>
    by_cases hk : kv.1 = k
    · simp [dictSet, hk]
    · simp [dictSet, hk, ih]

/-- Assigning the `neo` key does not change the join test, which reads only
the `_designation` key. -/
theorem matchKey_dictSet (acc : JObj) (v : JEntryVal) (nd : List (String × PyVal)) :
    matchKey (dictSet acc "neo" v) nd = matchKey acc nd := by
  unfold matchKey
  rw [dictLookup_dictSet_ne acc "_designation" "neo" v (by decide)]

/-- Once the matching NEO is attached, further scans leave the dictionary
unchanged: non-matches skip it, and re-matches overwrite `neo` with the same
value. -/
theorem foldl_attachStep_fixed (neos : List (List (String × PyVal))) (acc : JObj)
    (nd0 : List (String × PyVal))
    (hall : ∀ nd ∈ neos, matchKey acc nd = true → nd = nd0) :
    neos.foldl attachStep (dictSet acc "neo" (JEntryVal.obj nd0))
      = dictSet acc "neo" (JEntryVal.obj nd0) := by
  induction neos with
  | nil => rfl
  | cons nd rest ih =>
    have step : attachStep (dictSet acc "neo" (JEntryVal.obj nd0)) nd
        = dictSet acc "neo" (JEntryVal.obj nd0) := by
      unfold attachStep
      rw [matchKey_dictSet]
      by_cases h : matchKey acc nd = true
      · rw [if_pos h, hall nd (List.mem_cons_self nd rest) h, dictSet_dictSet]
      · rw [if_neg (by simp [h])]
    rw [List.foldl_cons, step]
    exact ih (fun nd h => hall nd (List.mem_cons_of_mem _ h))

/-- If no serialized NEO matches, the join loop leaves the dictionary
unchanged. -/
theorem foldl_attachStep_nomatch (neos : List (List (String × PyVal))) (acc : JObj)
    (hall : ∀ nd ∈ neos, matchKey acc nd = false) :
    neos.foldl attachStep acc = acc := by
  induction neos with
  | nil => rfl
  | cons nd rest ih =>
    have step : attachStep acc nd = acc := by
      unfold attachStep
      rw [if_neg (by simp [hall nd (List.mem_cons_self nd rest)])]
    rw [List.foldl_cons, step]
    exact ih (fun nd h => hall nd (List.mem_cons_of_mem _ h))

/-- If every matching serialized NEO equals `nd0` and at least one match
occurs, the join loop attaches exactly `nd0`. -/
theorem foldl_attachStep_matched (neos : List (List (String × PyVal))) (acc : JObj)
    (nd0 : List (String × PyVal))
    (hall : ∀ nd ∈ neos, matchKey acc nd = true → nd = nd0)
    (hmem : ∃ nd ∈ neos, matchKey acc nd = true) :
    neos.foldl attachStep acc = dictSet acc "neo" (JEntryVal.obj nd0) := by
  induction neos with
  | nil => simp at hmem
  | cons nd rest ih =>
    by_cases h : matchKey acc nd = true
    · have hnd : nd = nd0 := hall nd (List.mem_cons_self nd rest) h
      have step : attachStep acc nd = dictSet acc "neo" (JEntryVal.obj nd0) := by
        unfold attachStep
        rw [if_pos h, hnd]
      rw [List.foldl_cons, step]
      exact foldl_attachStep_fixed rest acc nd0
        (fun nd h => hall nd (List.mem_cons_of_mem _ h))
    · have step : attachStep acc nd = acc := by
        unfold attachStep
        rw [if_neg (by simp [h])]
      rw [List.foldl_cons, step]
      refine ih (fun nd h => hall nd (List.mem_cons_of_mem _ h)) ?_
      rcases hmem with ⟨nd2, hnd2, hm⟩
      rcases List.mem_cons.mp hnd2 with h2 | h2
      · exact absurd (h2 ▸ hm) h
      · exact ⟨nd2, h2, hm⟩

/-- The join test between a serialized close approach and a serialized NEO
compares the NEO's designation with the approach's foreign key. -/
theorem matchKey_serialize (ca : CloseApproach) (n : NearEarthObject) :
    matchKey (liftDict ca.serialize) (NearEarthObject.serialize n)
      = decide (pyOfOptStr n.designation = pyOfOptStr ca._designation) := rfl

/-- Attaching `neo` to a freshly serialized close approach appends the key. -/
theorem dictSet_neo_serialized (ca : CloseApproach) (x : JEntryVal) :
    dictSet (liftDict ca.serialize) "neo" x = liftDict ca.serialize ++ [("neo", x)] := rfl

/-- Deleting the joining key from a serialized approach with `neo` attached. -/
theorem dictDel_after_attach (ca : CloseApproach) (x : JEntryVal) :
    dictDel (liftDict ca.serialize ++ [("neo", x)]) "_designation"
      = [("distance_au", JEntryVal.prim (PyVal.float ca.distance)),
         ("velocity_km_s", JEntryVal.prim (PyVal.float ca.velocity)),
         ("datetime_utc", JEntryVal.prim (PyVal.str (datetime_to_str ca.time))),
         ("neo", x)] := rfl

/-- Deleting the joining key from a serialized approach with no `neo` attached. -/
theorem dictDel_no_attach (ca : CloseApproach) :
    dictDel (liftDict ca.serialize) "_designation"
      = [("distance_au", JEntryVal.prim (PyVal.float ca.distance)),
         ("velocity_km_s", JEntryVal.prim (PyVal.float ca.velocity)),
         ("datetime_utc", JEntryVal.prim (PyVal.str (datetime_to_str ca.time)))] := rfl

/-- A resolved close approach yields its data row without error. -/
theorem csvApproachRow_resolved (ca : CloseApproach) (n : NearEarthObject)
    (h : ca.neo = some n) : csvApproachRow ca = Except.ok (csvRowSpec ca) := by
  unfold csvApproachRow csvRowSpec
  rw [h]

/-- When every close approach is resolved, the row loop succeeds and yields
one row per approach, in input order. -/
theorem csvRows_resolved (results : List CloseApproach)
    (h : ∀ ca ∈ results, ca.neo ≠ Option.none) :
    csvRows results = Except.ok (results.map csvRowSpec) := by
  induction results with
  | nil => rfl
  | cons ca rest ih =>
    obtain ⟨n, hn⟩ : ∃ n, ca.neo = some n := by
      cases hne : ca.neo with
      | none => exact absurd hne (h ca (List.mem_cons_self ca rest))
      | some n => exact ⟨n, rfl⟩
    rw [csvRows, csvApproachRow_resolved ca n hn,
      ih (fun ca h2 => h ca (List.mem_cons_of_mem _ h2)), List.map_cons]

/-- `write_to_json` writes one object per input close approach. -/
theorem write_to_json_length (results : List CloseApproach) :
    (write_to_json results).length = results.length := by
  simp [write_to_json]

/-- The `i`-th object `write_to_json` writes is the `i`-th serialized
approach, run through the join loop and stripped of its joining key. -/
theorem write_to_json_entry (results : List CloseApproach) (i : ℕ)
    (hi : i < results.length) :
    (write_to_json results).getD i []
      = dictDel ((neoDicts results).foldl attachStep
          (liftDict (results[i]).serialize)) "_designation" := by
  unfold write_to_json
  rw [getD_map _ _ i (by simpa using hi), List.getElem_map]

/-- When the `i`-th approach is resolved to an NEO whose designation equals
its foreign key, and designations determine NEOs among the resolved
approaches, the `i`-th written object is the approach's fields with that
NEO's serialization nested under `neo`. -/
theorem write_to_json_entry_matched (results : List CloseApproach) (i : ℕ)
    (hi : i < results.length) (n : NearEarthObject)
    (hn : (results[i]).neo = some n)
    (hdes : n.designation = (results[i])._designation)
    (huniq : ∀ ca2 ∈ results, ∀ n2, ca2.neo = some n2 →
      n2.designation = n.designation → n2 = n) :
    (write_to_json results).getD i []
      = [("distance_au", JEntryVal.prim (PyVal.float (results[i]).distance)),
         ("velocity_km_s", JEntryVal.prim (PyVal.float (results[i]).velocity)),
         ("datetime_utc", JEntryVal.prim (PyVal.str (datetime_to_str (results[i]).time))),
         ("neo", JEntryVal.obj (NearEarthObject.serialize n))] := by
  have hca : results[i] ∈ results := List.getElem_mem hi
  have hall : ∀ nd ∈ neoDicts results,
      matchKey (liftDict (results[i]).serialize) nd = true
        → nd = NearEarthObject.serialize n := by
    intro nd hnd hm
    obtain ⟨n2, hn2mem, rfl⟩ := List.mem_map.mp hnd
    obtain ⟨ca2, hca2, hca2neo⟩ := List.mem_filterMap.mp hn2mem
    rw [matchKey_serialize] at hm
    have h2 : n2.designation = (results[i])._designation :=
      pyOfOptStr_inj (of_decide_eq_true hm)
    exact congrArg NearEarthObject.serialize
      (huniq ca2 hca2 n2 hca2neo (h2.trans hdes.symm))
  have hmem : ∃ nd ∈ neoDicts results,
      matchKey (liftDict (results[i]).serialize) nd = true := by
    refine ⟨NearEarthObject.serialize n, ?_, ?_⟩
    · exact List.mem_map_of_mem _ (List.mem_filterMap.mpr ⟨results[i], hca, hn⟩)
    · rw [matchKey_serialize]
      exact decide_eq_true (congrArg pyOfOptStr hdes)
  rw [write_to_json_entry results i hi,
    foldl_attachStep_matched _ _ (NearEarthObject.serialize n) hall hmem,
    dictSet_neo_serialized, dictDel_after_attach]

/-- When no resolved approach in the input carries an NEO whose designation
equals the `i`-th approach's foreign key, the join loop attaches nothing
and the `i`-th written object has no `neo` key. -/
theorem write_to_json_entry_nomatch (results : List CloseApproach) (i : ℕ)
    (hi : i < results.length)
    (hsep : ∀ ca2 ∈ results, ∀ n2, ca2.neo = some n2 →
      n2.designation ≠ (results[i])._designation) :
    (write_to_json results).getD i []
      = [("distance_au", JEntryVal.prim (PyVal.float (results[i]).distance)),
         ("velocity_km_s", JEntryVal.prim (PyVal.float (results[i]).velocity)),
         ("datetime_utc", JEntryVal.prim (PyVal.str (datetime_to_str (results[i]).time)))] := by
  have hall : ∀ nd ∈ neoDicts results,
      matchKey (liftDict (results[i]).serialize) nd = false := by
    intro nd hnd
    obtain ⟨n2, hn2mem, rfl⟩ := List.mem_map.mp hnd
    obtain ⟨ca2, hca2, hca2neo⟩ := List.mem_filterMap.mp hn2mem
    rw [matchKey_serialize]
    exact decide_eq_false
      (fun h => hsep ca2 hca2 n2 hca2neo (pyOfOptStr_inj h))
  rw [write_to_json_entry results i hi, foldl_attachStep_nomatch _ _ hall,
    dictDel_no_attach]

/-- C1: the claim says an unnamed NEO's `fullname` is the bare designation
string; the code's else-branch is a Python set literal, so `fullname` is in
fact a one-element set, not the string.  The named case matches the claim. -/
theorem claim1_fullname_unnamed_is_set :
    NearEarthObject.fullname neo1a = FullnameVal.set (some "2020 AB") ∧
    NearEarthObject.fullname neo1a ≠ FullnameVal.str "2020 AB" ∧
    NearEarthObject.fullname neo1b = FullnameVal.str "433 (Eros)" :=
  ⟨rfl, by decide, rfl⟩

/-- C2 counterexample: `CloseApproach.serialize` uses the key
`_designation`, not `designation` as the claim states. -/
theorem claim2_serialize_key_counterexample :
    (CloseApproach.serialize ca2x).map Prod.fst
      = ["distance_au", "velocity_km_s", "datetime_utc", "_designation"] ∧
    dictLookup (CloseApproach.serialize ca2x) "designation" = Option.none :=
  ⟨rfl, rfl⟩

/-- C2 (amended): `NearEarthObject.serialize` has exactly the keys
`designation`, `name`, `diameter_km`, `potentially_hazardous` with `name`
the empty string when unset, and `CloseApproach.serialize` has exactly the
keys `_designation`, `datetime_utc`, `distance_au`, `velocity_km_s`; every
key's value echoes the corresponding field. -/
theorem claim2_serialize_contract (neo : NearEarthObject) (ca : CloseApproach) :
    (NearEarthObject.serialize neo).map Prod.fst
      = ["potentially_hazardous", "diameter_km", "name", "designation"] ∧
    dictLookup (NearEarthObject.serialize neo) "potentially_hazardous"
      = some (PyVal.bool neo.hazardous) ∧
    dictLookup (NearEarthObject.serialize neo) "diameter_km"
      = some (PyVal.float neo.diameter) ∧
    dictLookup (NearEarthObject.serialize neo) "name"
      = some (PyVal.str (if pyTruthyStr neo.name then neo.name.getD "" else "")) ∧
    dictLookup (NearEarthObject.serialize neo) "designation"
      = some (pyOfOptStr neo.designation) ∧
    (CloseApproach.serialize ca).map Prod.fst
      = ["distance_au", "velocity_km_s", "datetime_utc", "_designation"] ∧
    dictLookup (CloseApproach.serialize ca) "distance_au"
      = some (PyVal.float ca.distance) ∧
    dictLookup (CloseApproach.serialize ca) "velocity_km_s"
      = some (PyVal.float ca.velocity) ∧
    dictLookup (CloseApproach.serialize ca) "datetime_utc"
      = some (PyVal.str (datetime_to_str ca.time)) ∧
    dictLookup (CloseApproach.serialize ca) "_designation"
      = some (pyOfOptStr ca._designation) :=
  ⟨rfl, rfl, rfl, rfl, rfl, rfl, rfl, rfl, rfl, rfl⟩

/-- C3: when the NEO of a close approach has no name, the name column
(index 4) of its CSV row renders as the empty string — either the branch
writes `''` directly, or it writes Python `None`, which the csv writer
renders as an empty field. -/
theorem claim3_csv_name_empty (ca : CloseApproach) (n : NearEarthObject)
    (row : List PyVal) (h1 : ca.neo = some n) (h2 : n.name = Option.none)
    (h3 : csvApproachRow ca = Except.ok row) :
    csvCell (row.getD 4 (PyVal.str "x")) = "" := by
  unfold csvApproachRow at h3
  rw [h1] at h3
  injection h3 with h4
  subst h4
  cases hb : pyTruthyFloat n.diameter <;>
    simp [List.getD, hb, h2, csvCell, pyOfOptStr]

/-- C3 witness. -/
theorem claim3_csv_name_empty_witness :
    ca3.neo = some neo3 ∧ neo3.name = Option.none ∧
    csvApproachRow ca3 = Except.ok row3 ∧
    csvCell (row3.getD 4 (PyVal.str "x")) = "" :=
  ⟨rfl, rfl, rfl, claim3_csv_name_empty ca3 neo3 row3 rfl rfl rfl⟩

/-- C6: constructing an NEO from a CSV row whose optional fields (name,
diameter, hazard marker) are missing or empty succeeds, with a not-a-number
diameter, an absent (`None`) name, and a false hazard flag. -/
theorem claim6_neo_optional_fields (elem : RawCSVRow)
    (hn : elem.name = Option.none ∨ elem.name = some "")
    (hd : elem.diameter = Option.none ∨ elem.diameter = some "")
    (hp : elem.pha = Option.none ∨ elem.pha = some "") :
    NearEarthObject.init (load_neos_params elem)
      = Except.ok { designation := elem.pdes, name := Option.none,
                    diameter := FloatV.nan, hazardous := false } := by
  have hnan : pyFloatStr "nan" = Except.ok FloatV.nan := rfl
  have hempty : ("" : String).isEmpty = true := rfl
  rcases hn with hn | hn <;> rcases hd with hd | hd <;> rcases hp with hp | hp <;>
    simp [NearEarthObject.init, load_neos_params, hn, hd, hp, hnan, hempty,
      pyTruthyStr]

/-- C6 witness. -/
theorem claim6_neo_optional_fields_witness :
    (elem6.name = Option.none ∨ elem6.name = some "") ∧
    (elem6.diameter = Option.none ∨ elem6.diameter = some "") ∧
    (elem6.pha = Option.none ∨ elem6.pha = some "") ∧
    NearEarthObject.init (load_neos_params elem6)
      = Except.ok { designation := some "2020 AB", name := Option.none,
                    diameter := FloatV.nan, hazardous := false } :=
  ⟨Or.inl rfl, Or.inl rfl, Or.inl rfl,
   claim6_neo_optional_fields elem6 (Or.inl rfl) (Or.inl rfl) (Or.inl rfl)⟩

/-- C7: a close-approach record whose distance or velocity is absent or
unparsable makes construction raise (no default is substituted); with
well-formed numeric fields and a valid time code, construction succeeds
with the parsed values and an unresolved `neo`. -/
theorem claim7_ca_numeric_errors (info : RawCA) :
    ((exceptIsOk (pyFloatOpt info.distance) = false
        ∨ exceptIsOk (pyFloatOpt info.velocity) = false)
      → exceptIsOk (CloseApproach.init info) = false) ∧
    (∀ t d v, cd_to_datetime info.time = Except.ok t
      → pyFloatOpt info.distance = Except.ok d
      → pyFloatOpt info.velocity = Except.ok v
      → info.neo = Option.none
      → CloseApproach.init info = Except.ok
          { _designation := info.designation, time := t, distance := d,
            velocity := v, neo := Option.none }) := by
  constructor
  · intro h
    cases hct : cd_to_datetime info.time with
    | error e => simp [CloseApproach.init, hct, exceptIsOk]
    | ok t =>
      cases hd : pyFloatOpt info.distance with
      | error e => simp [CloseApproach.init, hct, hd, exceptIsOk]
      | ok d =>
        cases hv : pyFloatOpt info.velocity with
        | error e => simp [CloseApproach.init, hct, hd, hv, exceptIsOk]
        | ok v =>
          rcases h with h | h
          · rw [hd] at h
            simp [exceptIsOk] at h
          · rw [hv] at h
            simp [exceptIsOk] at h
  · intro t d v hct hd hv hneo
    simp [CloseApproach.init, hct, hd, hv, hneo]

/-- C7 witness. -/
theorem claim7_ca_numeric_errors_witness :
    exceptIsOk (pyFloatOpt info7bad.distance) = false ∧
    exceptIsOk (CloseApproach.init info7bad) = false ∧
    CloseApproach.init info7good = Except.ok
      { _designation := some "1",
        time := { year := 2020, month := 1, day := 1, hour := 0, minute := 0 },
        distance := FloatV.nan, velocity := FloatV.nan, neo := Option.none } :=
  ⟨rfl, (claim7_ca_numeric_errors info7bad).1 (Or.inl rfl),
   (claim7_ca_numeric_errors info7good).2
     { year := 2020, month := 1, day := 1, hour := 0, minute := 0 }
     FloatV.nan FloatV.nan rfl rfl rfl rfl⟩

/-- C9: a constructed NEO's hazard flag is true exactly when the raw hazard
marker is the string `Y`; any other marker, or an absent one, gives false. -/
theorem claim9_hazardous_iff_Y (info : RawNEO) (neo : NearEarthObject)
    (h : NearEarthObject.init info = Except.ok neo) :
    neo.hazardous = true ↔ info.hazardous = some "Y" := by
  unfold NearEarthObject.init at h
  cases hd : pyFloatStr (info.diameter.getD "nan") with
  | error e => rw [hd] at h; cases h
  | ok diam =>
    rw [hd] at h
    injection h with h2
    subst h2
    cases hi : info.hazardous with
    | none => simp
    | some s => simp

/-- C9 witness. -/
theorem claim9_hazardous_iff_Y_witness :
    NearEarthObject.init info9 = Except.ok neo9 ∧
    (neo9.hazardous = true ↔ info9.hazardous = some "Y") :=
  ⟨rfl, claim9_hazardous_iff_Y info9 neo9 rfl⟩

/-- C10: if any close approach in the input is unresolved (`neo` is `None`),
`write_to_csv` raises `AttributeError` while processing it — the loop body
dereferences `ca.neo.diameter` unconditionally — instead of writing a row. -/
theorem claim10_csv_unresolved_error (results : List CloseApproach)
    (h : ∃ ca ∈ results, ca.neo = Option.none) :
    write_to_csv results = Except.error PyErr.attributeError := by
  have hrows : csvRows results = Except.error PyErr.attributeError := by
    induction results with
    | nil => simp at h
    | cons ca rest ih =>
      rcases h with ⟨ca2, hmem, hne⟩
      rcases List.mem_cons.mp hmem with h2 | h2
      · have hca : ca.neo = Option.none := by rw [← h2]; exact hne
        rw [csvRows]
        simp [csvApproachRow, hca]
      · have hrest := ih ⟨ca2, h2, hne⟩
        rw [csvRows, hrest]
        cases hne2 : ca.neo with
        | none => simp [csvApproachRow, hne2]
        | some n => simp [csvApproachRow, hne2]
  unfold write_to_csv
  rw [hrows]

/-- C10 witness. -/
theorem claim10_csv_unresolved_error_witness :
    ca10.neo = Option.none ∧
    write_to_csv [ca10] = Except.error PyErr.attributeError :=
  ⟨rfl, claim10_csv_unresolved_error [ca10]
    ⟨ca10, List.mem_cons_self ca10 [], rfl⟩⟩

/-- C4 counterexample: the claim says an unresolved close approach's written
object omits the nested `neo` or marks it absent; but when another approach
in the sequence carries an NEO whose designation equals the unresolved
approach's foreign key, the join loop attaches that NEO to the unresolved
approach's object. -/
theorem claim4_json_unresolved_counterexample :
    cex4b.neo = Option.none ∧
    (dictLookup ((write_to_json [cex4a, cex4b]).getD 1 []) "neo").isSome = true :=
  ⟨rfl, rfl⟩

/-- C4 (amended): an unresolved close approach is written without error
(one output object per input approach), and its object omits the `neo` key,
provided no approach in the sequence carries an NEO whose designation
equals the unresolved approach's foreign key — the situation the dataset
invariant guarantees. -/
theorem claim4_json_unresolved_amended (results : List CloseApproach) (i : ℕ)
    (hi : i < results.length) (_hno : (results[i]).neo = Option.none)
    (hsep : ∀ ca2 ∈ results, ∀ n2, ca2.neo = some n2 →
      n2.designation ≠ (results[i])._designation) :
    (write_to_json results).length = results.length ∧
    dictLookup ((write_to_json results).getD i []) "neo" = Option.none := by
  refine ⟨write_to_json_length results, ?_⟩
  rw [write_to_json_entry_nomatch results i hi hsep]
  rfl

/-- C4 witness. -/
theorem claim4_json_unresolved_witness :
    ca4.neo = Option.none ∧
    (write_to_json results4).length = results4.length ∧
    dictLookup ((write_to_json results4).getD 0 []) "neo" = Option.none := by
  have h := claim4_json_unresolved_amended results4 0 (by decide) rfl (by
    intro ca2 hmem n2 hn2
    simp [results4] at hmem
    subst hmem
    simp [ca4] at hn2)
  exact ⟨rfl, h.1, h.2⟩

/-- C5: when each written close approach is resolved to an NEO whose
designation equals its foreign key (the linker invariant the claim
presupposes), and designations determine NEOs among the resolved
approaches, every written object consists of `distance_au`,
`velocity_km_s`, `datetime_utc` plus the nested serialized `neo` (whose
`designation` equals the approach's own joining key and which carries the
four NEO fields), and the internal `_designation` joining key is absent
from the output. -/
theorem claim5_json_structure (results : List CloseApproach) (i : ℕ)
    (hi : i < results.length) (n : NearEarthObject)
    (hn : (results[i]).neo = some n)
    (hdes : n.designation = (results[i])._designation)
    (huniq : ∀ ca2 ∈ results, ∀ n2, ca2.neo = some n2 →
      n2.designation = n.designation → n2 = n) :
    (write_to_json results).length = results.length ∧
    (write_to_json results).getD i []
      = [("distance_au", JEntryVal.prim (PyVal.float (results[i]).distance)),
         ("velocity_km_s", JEntryVal.prim (PyVal.float (results[i]).velocity)),
         ("datetime_utc", JEntryVal.prim (PyVal.str (datetime_to_str (results[i]).time))),
         ("neo", JEntryVal.obj (NearEarthObject.serialize n))] ∧
    dictLookup (NearEarthObject.serialize n) "designation"
      = some (pyOfOptStr (results[i])._designation) ∧
    (NearEarthObject.serialize n).map Prod.fst
      = ["potentially_hazardous", "diameter_km", "name", "designation"] ∧
    dictLookup ((write_to_json results).getD i []) "_designation" = Option.none := by
  have hmain := write_to_json_entry_matched results i hi n hn hdes huniq
  refine ⟨write_to_json_length results, hmain, ?_, rfl, ?_⟩
  · show some (pyOfOptStr n.designation) = some (pyOfOptStr (results[i])._designation)
    rw [hdes]
  · rw [hmain]
    rfl

/-- C5 witness. -/
theorem claim5_json_structure_witness :
    ca5.neo = some neo5 ∧
    (write_to_json results5).getD 0 []
      = [("distance_au", JEntryVal.prim (PyVal.float ca5.distance)),
         ("velocity_km_s", JEntryVal.prim (PyVal.float ca5.velocity)),
         ("datetime_utc", JEntryVal.prim (PyVal.str (datetime_to_str ca5.time))),
         ("neo", JEntryVal.obj (NearEarthObject.serialize neo5))] ∧
    dictLookup (NearEarthObject.serialize neo5) "designation"
      = some (pyOfOptStr ca5._designation) ∧
    dictLookup ((write_to_json results5).getD 0 []) "_designation" = Option.none := by
  have h := claim5_json_structure results5 0 (by decide) neo5 rfl rfl (by
    intro ca2 hmem n2 hn2 hdeseq
    simp [results5] at hmem
    subst hmem
    simp [ca5] at hn2
    exact hn2.symm)
  exact ⟨rfl, h.2.1, h.2.2.1, h.2.2.2.2⟩

/-- C8: on a sequence of resolved close approaches, `write_to_csv` writes
first the header row with exactly the seven column names in order, then one
data row per close approach with the column values in that same order,
the rows following the input order. -/
theorem claim8_csv_rows (results : List CloseApproach)
    (h : ∀ ca ∈ results, ca.neo ≠ Option.none) :
    write_to_csv results = Except.ok (csvHeader :: results.map csvRowSpec) ∧
    csvHeader = [PyVal.str "datetime_utc", PyVal.str "distance_au",
      PyVal.str "velocity_km_s", PyVal.str "designation", PyVal.str "name",
      PyVal.str "diameter_km", PyVal.str "potentially_hazardous"] := by
  refine ⟨?_, rfl⟩
  unfold write_to_csv
  rw [csvRows_resolved results h]

/-- C8 witness. -/
theorem claim8_csv_rows_witness :
    ca8.neo = some neo8 ∧
    write_to_csv results8 = Except.ok (csvHeader :: results8.map csvRowSpec) :=
  ⟨rfl, (claim8_csv_rows results8 (by decide)).1⟩
